import Mathlib

/-!
Verification of the schriftbot-backend credit-ledger core against its
natural-language specification.

The repository is a family of near-duplicate webhook services.  The model
below is a shallow embedding of the ledger-relevant fragments:

* `applyCredits`        — src/server.ts, lines 273-318 (Firestore REST PATCH
                          replaces the whole document with the given fields);
* `grantCreditsToUser`  — src/unnamed/part_003, lines 25-98 (admin-SDK
                          `set(..., {merge:true})`, no idempotency check);
* `updateFirestoreUser` variants are behaviourally covered by `applyCredits`
  for the claims that cite them (same invoice-id dedup, same balance rule);
* the `customer.subscription.deleted` handlers of src/index.js (second
  document, lines 297-311) and src/unnamed/part_001 (lines 124-140);
* the `checkout.session.completed` normalisation of src/server.ts
  (lines 188-213) and the uid gate of src/index.js (lines 230-237);
* `getUser` / `applyCredits` of src/unnamed/part_000 (lines 22-27, 124-151).

JavaScript numeric fields are modelled as unbounded integers (`Int`): every
value the services handle (credit amounts, the 999999 sentinel) is exactly
representable in an IEEE double, and no overflow-relevant arithmetic occurs.
A `NaN` produced by `Number`/`parseInt` is modelled as `none : Option Int`.
String-to-number coercion is modelled on the value space the services use
(decimal natural-number literals, possibly surrounded by whitespace; any
other non-empty trimmed string is NaN, which agrees with JavaScript on all
inputs without signs, fraction parts, exponents or radix prefixes).
-/

namespace Schriftbot

/-- JavaScript truthiness of a possibly-absent string: `undefined`/`null`
and the empty string are falsy, every other string is truthy. -/
def jsTruthy : Option String → Bool
  | none => false
  | some s => !(s == "")

/-- Whitespace for the purposes of JavaScript string-to-number coercion. -/
def jsWhitespace (c : Char) : Bool :=
  c == ' ' || c == '\t' || c == '\n' || c == '\r'

/-- Trim of a character list on both ends. -/
def trimChars (l : List Char) : List Char :=
  ((l.dropWhile jsWhitespace).reverse.dropWhile jsWhitespace).reverse

/-- Value of a decimal digit run with accumulator; `none` as soon as a
non-digit character appears. -/
def decValue : List Char → Nat → Option Nat
  | [], acc => some acc
  | c :: rest, acc =>
    if c.isDigit then decValue rest (acc * 10 + (c.toNat - 48)) else none

/-- JavaScript `Number(s)` on a string, restricted to the modelled value
space: a blank (all-whitespace) string is `0`; a trimmed decimal digit
string is its numeric value; any other string is NaN (`none`). -/
def jsNumberOfString (s : String) : Option Int :=
  let t := trimChars s.data
  if t = [] then some 0
  else (decValue t 0).map Int.ofNat

/-- src/server.ts line 203: `Number(product.metadata?.credits || 0)`.
An absent metadata value or the empty string is falsy, so `|| 0` turns it
into `Number(0) = 0`; any other string goes through `Number`. -/
def sessionCredits (credits : Option String) : Option Int :=
  match credits with
  | none => some 0
  | some s => if s == "" then some 0 else jsNumberOfString s

/-- src/server.ts line 204: `product.metadata?.isUnlimited === "true"` —
strict string equality, not a truthiness coercion. -/
def metaIsUnlimited (v : Option String) : Bool := v == some "true"

/-- JavaScript `a || d` for an optional string `a` with default `d`. -/
def jsOrDefault (a : Option String) (d : String) : String :=
  match a with
  | none => d
  | some s => if s == "" then d else s

/-- src/server.ts line 205: `product.metadata?.planName || product.name ||
"Unknown"`. -/
def planOf (planName : Option String) (productName : Option String) : String :=
  jsOrDefault planName (jsOrDefault productName "Unknown")

/-- One entry of the `payments` array of a user document.  The REST
variants write records `{invoiceId, credits, date}` but rewrite earlier
records with only `invoiceId`, so the two value fields are optional. -/
structure PaymentRecord where
  invoiceId : String
  credits : Option Int
  date : Option String
deriving DecidableEq, Repr

/-- A user document as written by src/server.ts `applyCredits` (the REST
PATCH body, which replaces the whole document with exactly these fields). -/
structure UserDoc where
  credits : Int
  isUnlimited : Bool
  plan : String
  lastPaymentStatus : String
  lastPaymentDate : String
  payments : List PaymentRecord
deriving DecidableEq, Repr

/-- The argument record of src/server.ts `applyCredits` (lines 275-280):
`{credits, isUnlimited, plan, invoiceId}`. -/
structure CreditGrant where
  credits : Int
  isUnlimited : Bool
  plan : String
  invoiceId : String
deriving DecidableEq, Repr

/-- Outcome of one `applyCredits` call: either the write happened with the
given new balance, or the invoice id was already in `payments` and the
function returned before the PATCH (no write). -/
inductive ApplyResult where
  | applied (newBalance : Int)
  | alreadyApplied
deriving DecidableEq, Repr

/-- src/server.ts line 295: `user.credits || 0`, with `user = (await
getUser(uid)) || {}` — an absent document reads as balance 0. -/
def userCredits : Option UserDoc → Int
  | none => 0
  | some u => u.credits

/-- src/server.ts line 286: `user.payments || []`. -/
def userPayments : Option UserDoc → List PaymentRecord
  | none => []
  | some u => u.payments

/-- Stored unlimited flag; an absent document is not unlimited. -/
def userIsUnlimited : Option UserDoc → Bool
  | none => false
  | some u => u.isUnlimited

/-- src/server.ts line 288: `payments.some((p) => p.invoiceId ===
data.invoiceId)`. -/
def hasInvoice (payments : List PaymentRecord) (id : String) : Bool :=
  payments.any (fun p => p.invoiceId == id)

/-- The invoice ids of a payments array, in order. -/
def invoiceIds (payments : List PaymentRecord) : List String :=
  payments.map (fun p => p.invoiceId)

/-- src/server.ts `applyCredits` (lines 273-318) as a state transition on
the optional user document.  `now` stands for `new Date().toISOString()`.
If the invoice id is already present the function returns before writing;
otherwise the PATCH body replaces the document: the new balance is the
sentinel 999999 for an unlimited grant and `current + credits` otherwise,
and the payments array is rebuilt from the old records keeping only their
`invoiceId` (line 304) plus one new full record (lines 305-309). -/
def applyCredits (user : Option UserDoc) (g : CreditGrant) (now : String) :
    Option UserDoc × ApplyResult :=
  let payments := userPayments user
  if hasInvoice payments g.invoiceId then
    (user, ApplyResult.alreadyApplied)
  else
    let newCredits := if g.isUnlimited then 999999 else userCredits user + g.credits
    (some
      { credits := newCredits
        isUnlimited := g.isUnlimited
        plan := g.plan
        lastPaymentStatus := "active"
        lastPaymentDate := now
        payments :=
          payments.map (fun p => { invoiceId := p.invoiceId, credits := none, date := none })
            ++ [{ invoiceId := g.invoiceId, credits := some g.credits, date := some now }] },
      ApplyResult.applied newCredits)

/-- Sequential application of a list of grants (each with its timestamp)
through `applyCredits`, starting from the given document. -/
def applyCreditsSeq (user : Option UserDoc) : List (CreditGrant × String) → Option UserDoc
  | [] => user
  | gn :: rest => applyCreditsSeq (applyCredits user gn.1 gn.2).1 rest

/-- Specification-side sum: the credit deltas of the grants that actually
apply when the ids in `seen` are already recorded — each grant counts once,
at its first occurrence, and duplicates of `seen` or of earlier grants are
skipped.  This is the formal reading of the sum of all applied
`creditDelta` values in the spec. -/
def newDeltaSum : List String → List CreditGrant → Int
  | _, [] => 0
  | seen, g :: rest =>
    if g.invoiceId ∈ seen then newDeltaSum seen rest
    else g.credits + newDeltaSum (g.invoiceId :: seen) rest

/-- A user document as held by the admin-SDK variants (part_001, part_002,
part_003, index.js), which update with `set(..., {merge:true})`: fields not
mentioned in the mutation are preserved. -/
structure AdminDoc where
  credits : Int
  isUnlimited : Bool
  plan : String
  lastPaymentStatus : String
  subscriptionId : Option String
  stripeCustomerId : Option String
  payments : List PaymentRecord
deriving DecidableEq, Repr

/-- src/unnamed/part_003 `grantCreditsToUser`, Firestore-update core
(lines 75-87): a merge write performed on every invocation — there is no
payments-history idempotency check in this variant.  `credits` is
overwritten with the plan amount (`isUnlimited ? 999999 : credits`), not
incremented.  The second component records that a store write was
performed. -/
def grantCreditsToUser (user : AdminDoc) (credits : Int) (unlimited : Bool)
    (planName : String) (subscriptionId : String) (customerId : String) :
    AdminDoc × Bool :=
  ({ user with
      credits := if unlimited then 999999 else credits
      isUnlimited := unlimited
      plan := planName
      lastPaymentStatus := "active"
      subscriptionId := some subscriptionId
      stripeCustomerId := some customerId },
    true)

/-- The normalised inputs of one part_003 `grantCreditsToUser` invocation
(product credits, unlimited flag, plan name, subscription and customer
ids), for stating sequence-level facts about that variant. -/
structure Grant003 where
  credits : Int
  isUnlimited : Bool
  planName : String
  subscriptionId : String
  customerId : String
deriving DecidableEq, Repr

/-- Sequential application of grants through the part_003
`grantCreditsToUser` write, starting from the given document. -/
def grantCreditsToUserSeq (user : AdminDoc) : List Grant003 → AdminDoc
  | [] => user
  | g :: rest =>
    grantCreditsToUserSeq
      (grantCreditsToUser user g.credits g.isUnlimited g.planName
        g.subscriptionId g.customerId).1
      rest

/-- src/index.js `customer.subscription.deleted` handler (second document,
lines 301-309): merge write of `{credits: 0, isUnlimited: false, plan:
"expired"}`.  No payment-status field is written in this variant. -/
def subscriptionDeletedIndexJs (user : AdminDoc) : AdminDoc :=
  { user with credits := 0, isUnlimited := false, plan := "expired" }

/-- src/unnamed/part_001 `customer.subscription.deleted` handler
(lines 128-137): merge write of `{credits: 0, isUnlimited: false, plan:
"expired", lastPaymentStatus: "canceled"}`. -/
def subscriptionDeletedPart001 (user : AdminDoc) : AdminDoc :=
  { user with
      credits := 0
      isUnlimited := false
      plan := "expired"
      lastPaymentStatus := "canceled" }

/-- The fields of a `checkout.session.completed` event object that the
handlers read: `id`, `client_reference_id`, `invoice`. -/
structure CheckoutSession where
  id : String
  clientReferenceId : Option String
  invoice : Option String
deriving DecidableEq, Repr

/-- The product metadata map fields the normaliser reads. -/
structure ProductMeta where
  credits : Option String
  isUnlimited : Option String
  planName : Option String
deriving DecidableEq, Repr

/-- The expanded first line item of a checkout session: its product with
metadata and display name. -/
structure LineItemProduct where
  metadata : ProductMeta
  name : Option String
deriving DecidableEq, Repr

/-- Outcome of the src/server.ts `checkout.session.completed` handler:
either the handler answered `{received: true}` without calling
`applyCredits` (no store write), or it called `applyCredits` with the
normalised grant data. -/
inductive CheckoutOutcome where
  | ignored
  | granted (uid : String) (credits : Option Int) (unlimited : Bool)
      (plan : String) (invoiceId : String)
deriving DecidableEq, Repr

/-- src/server.ts `checkout.session.completed` handler (lines 188-213):
a falsy `client_reference_id` or a missing first line item short-circuits
to `{received: true}` with no write; otherwise the metadata is normalised
(lines 203-205) and `applyCredits` is invoked with invoice id
`session.invoice || session.id` (line 211). -/
def checkoutCompleted (session : CheckoutSession) (lineItem : Option LineItemProduct) :
    CheckoutOutcome :=
  if jsTruthy session.clientReferenceId = false then CheckoutOutcome.ignored
  else
    match lineItem with
    | none => CheckoutOutcome.ignored
    | some li =>
      CheckoutOutcome.granted
        (session.clientReferenceId.getD "")
        (sessionCredits li.metadata.credits)
        (metaIsUnlimited li.metadata.isUnlimited)
        (planOf li.metadata.planName li.name)
        (jsOrDefault session.invoice session.id)

/-- src/index.js `checkout.session.completed` uid gate (second document,
lines 230-237): `if (!uid) { ...; return res.json({received: true}); }` —
the handler proceeds to `updateFirestoreUser` exactly when the
`client_reference_id` is truthy. -/
def checkoutProceedsIndexJs (uid : Option String) : Bool :=
  jsTruthy uid

/-- A Firestore REST `GET users/{uid}` response as the part_000 variant
sees it: the HTTP status, whether it was in the 2xx range (`ok`), and the
parsed `fields` of the body when present. -/
structure FirestoreResponse (α : Type) where
  ok : Bool
  status : Nat
  fields : Option α
deriving DecidableEq, Repr

/-- A user document as written by the part_000 variant (PATCH body fields:
credits, isUnlimited, plan, lastPaymentStatus, payments). -/
structure UserDoc000 where
  credits : Int
  isUnlimited : Bool
  plan : String
  lastPaymentStatus : String
  payments : List PaymentRecord
deriving DecidableEq, Repr

/-- src/unnamed/part_000 `getUser` (lines 22-27): `if (!res.ok) return
null;` — every non-OK response, whatever its status, yields `null`, and an
OK body without `fields` yields `null` as well. -/
def getUser000 (res : FirestoreResponse UserDoc000) : Option UserDoc000 :=
  if res.ok = false then none
  else res.fields

/-- part_000 reading of balance: `user.credits || 0` over `(await
getUser(uid)) || {}`. -/
def userCredits000 : Option UserDoc000 → Int
  | none => 0
  | some u => u.credits

/-- part_000 reading of the payments array: `user.payments || []`. -/
def userPayments000 : Option UserDoc000 → List PaymentRecord
  | none => []
  | some u => u.payments

/-- src/unnamed/part_000 `applyCredits` (lines 124-151): the same
invoice-id dedup and balance rule as src/server.ts, with a PATCH body that
has no `lastPaymentDate` and whose new payment record carries no `date`
(lines 139-148). -/
def applyCredits000 (user : Option UserDoc000) (g : CreditGrant) :
    Option UserDoc000 × ApplyResult :=
  let payments := userPayments000 user
  if hasInvoice payments g.invoiceId then
    (user, ApplyResult.alreadyApplied)
  else
    let newCredits := if g.isUnlimited then 999999 else userCredits000 user + g.credits
    (some
      { credits := newCredits
        isUnlimited := g.isUnlimited
        plan := g.plan
        lastPaymentStatus := "active"
        payments :=
          payments.map (fun p => { invoiceId := p.invoiceId, credits := none, date := none })
            ++ [{ invoiceId := g.invoiceId, credits := some g.credits, date := none }] },
      ApplyResult.applied newCredits)

lemma hasInvoice_iff_mem (l : List PaymentRecord) (t : String) :
    hasInvoice l t = true ↔ t ∈ invoiceIds l := by
  simp only [hasInvoice, invoiceIds, List.any_eq_true, List.mem_map, beq_iff_eq]

lemma applyCredits_dup (user : Option UserDoc) (g : CreditGrant) (now : String)
    (h : hasInvoice (userPayments user) g.invoiceId = true) :
    applyCredits user g now = (user, ApplyResult.alreadyApplied) := by
  simp [applyCredits, h]

lemma userPayments_apply_fresh (user : Option UserDoc) (g : CreditGrant) (now : String)
    (h : hasInvoice (userPayments user) g.invoiceId = false) :
    userPayments (applyCredits user g now).1
      = (userPayments user).map (fun p => { invoiceId := p.invoiceId, credits := none, date := none })
        ++ [{ invoiceId := g.invoiceId, credits := some g.credits, date := some now }] := by
  simp only [applyCredits, h]
  simp [userPayments]

lemma userCredits_apply_fresh (user : Option UserDoc) (g : CreditGrant) (now : String)
    (h : hasInvoice (userPayments user) g.invoiceId = false)
    (hfin : g.isUnlimited = false) :
    userCredits (applyCredits user g now).1 = userCredits user + g.credits := by
  simp [applyCredits, h, hfin, userCredits]

lemma invoiceIds_apply_fresh (user : Option UserDoc) (g : CreditGrant) (now : String)
    (h : hasInvoice (userPayments user) g.invoiceId = false) :
    invoiceIds (userPayments (applyCredits user g now).1)
      = invoiceIds (userPayments user) ++ [g.invoiceId] := by
  rw [userPayments_apply_fresh user g now h]
  simp [invoiceIds]

lemma hasInvoice_apply_fresh (user : Option UserDoc) (g : CreditGrant) (now : String)
    (t : String) (h : hasInvoice (userPayments user) g.invoiceId = false) :
    hasInvoice (userPayments (applyCredits user g now).1) t
      = (hasInvoice (userPayments user) t || g.invoiceId == t) := by
  rw [userPayments_apply_fresh user g now h]
  simp [hasInvoice, Function.comp_def]

lemma hasInvoice_after_apply (user : Option UserDoc) (g : CreditGrant) (now : String) :
    hasInvoice (userPayments (applyCredits user g now).1) g.invoiceId = true := by
  by_cases h : hasInvoice (userPayments user) g.invoiceId
  · rw [applyCredits_dup user g now h]
    exact h
  · rw [hasInvoice_apply_fresh user g now g.invoiceId (by simpa using h)]
    simp

lemma newDeltaSum_congr (gs : List CreditGrant) :
    ∀ s1 s2 : List String, (∀ x, x ∈ s1 ↔ x ∈ s2) →
      newDeltaSum s1 gs = newDeltaSum s2 gs := by
  induction gs with
  | nil => intro s1 s2 _; rfl
  | cons g rest ih =>
    intro s1 s2 h
    simp only [newDeltaSum]
    by_cases hg : g.invoiceId ∈ s1
    · rw [if_pos hg, if_pos ((h _).1 hg)]
      exact ih s1 s2 h
    · rw [if_neg hg, if_neg (fun hx => hg ((h _).2 hx))]
      have h2 : ∀ x, x ∈ g.invoiceId :: s1 ↔ x ∈ g.invoiceId :: s2 := by
        intro x
        simp [h x]
      rw [ih _ _ h2]

lemma credits_applyCreditsSeq (gs : List (CreditGrant × String)) :
    ∀ user : Option UserDoc, (∀ gn ∈ gs, gn.1.isUnlimited = false) →
      userCredits (applyCreditsSeq user gs)
        = userCredits user
          + newDeltaSum (invoiceIds (userPayments user)) (gs.map Prod.fst) := by
  induction gs with
  | nil =>
    intro user _
    simp [applyCreditsSeq, newDeltaSum]
  | cons gn rest ih =>
    intro user h
    have hfin : gn.1.isUnlimited = false := h gn (by simp)
    have hrest : ∀ x ∈ rest, x.1.isUnlimited = false := fun x hx => h x (by simp [hx])
    by_cases hdup : hasInvoice (userPayments user) gn.1.invoiceId
    · have hmem : gn.1.invoiceId ∈ invoiceIds (userPayments user) :=
        (hasInvoice_iff_mem _ _).1 hdup
      simp only [applyCreditsSeq, applyCredits_dup user gn.1 gn.2 hdup]
      rw [ih user hrest]
      simp [newDeltaSum, hmem]
    · have hfresh : hasInvoice (userPayments user) gn.1.invoiceId = false := by
        simpa using hdup
      have hnomem : gn.1.invoiceId ∉ invoiceIds (userPayments user) := by
        intro hmem
        rw [(hasInvoice_iff_mem _ _).2 hmem] at hfresh
        exact Bool.true_eq_false.mp hfresh
      simp only [applyCreditsSeq]
      rw [ih _ hrest, userCredits_apply_fresh user gn.1 gn.2 hfresh hfin,
        invoiceIds_apply_fresh user gn.1 gn.2 hfresh]
      have hcongr :
          newDeltaSum (invoiceIds (userPayments user) ++ [gn.1.invoiceId]) (rest.map Prod.fst)
            = newDeltaSum (gn.1.invoiceId :: invoiceIds (userPayments user)) (rest.map Prod.fst) := by
        apply newDeltaSum_congr
        intro x
        simp [or_comm]
      rw [hcongr]
      simp only [List.map_cons, newDeltaSum, if_neg hnomem]
      ring

lemma unlimited_sentinel_seq (gs : List (CreditGrant × String)) :
    ∀ user : Option UserDoc,
      (userIsUnlimited user = true → userCredits user = 999999) →
      userIsUnlimited (applyCreditsSeq user gs) = true →
      userCredits (applyCreditsSeq user gs) = 999999 := by
  induction gs with
  | nil =>
    intro user h
    exact h
  | cons gn rest ih =>
    intro user h
    apply ih
    by_cases hdup : hasInvoice (userPayments user) gn.1.invoiceId
    · rw [applyCredits_dup user gn.1 gn.2 hdup]
      exact h
    · have hfresh : hasInvoice (userPayments user) gn.1.invoiceId = false := by
        simpa using hdup
      intro hu
      by_cases hunl : gn.1.isUnlimited
      · simp only [applyCredits, hfresh]
        simp [hunl, userCredits]
      · have : userIsUnlimited (applyCredits user gn.1 gn.2).1 = false := by
          simp only [applyCredits, hfresh]
          simp [userIsUnlimited, Bool.eq_false_iff.mpr hunl]
        rw [this] at hu
        exact absurd hu (by simp)

lemma grantCreditsToUserSeq_last (gs : List Grant003) :
    ∀ (u : AdminDoc) (g : Grant003),
      (grantCreditsToUserSeq u (gs ++ [g])).credits
        = if g.isUnlimited then 999999 else g.credits := by
  induction gs with
  | nil =>
    intro u g
    simp [grantCreditsToUserSeq, grantCreditsToUser]
  | cons a rest ih =>
    intro u g
    simp only [List.cons_append, grantCreditsToUserSeq]
    exact ih _ g

/-- C1 counterexample: in the part_003 variant (`grantCreditsToUser`,
src/unnamed/part_003 lines 25-98) there is no transaction-history check at
all — re-applying the same grant to the state produced by its first
application performs a second store write (second component `true`), so
the claim that the second application finds the transaction id, returns
`AlreadyApplied` and performs no write is false at this input. -/
theorem C1_counterexample :
    (grantCreditsToUser
      (grantCreditsToUser
        { credits := 0, isUnlimited := false, plan := "Free",
          lastPaymentStatus := "none", subscriptionId := none,
          stripeCustomerId := none, payments := [] }
        20 false "Basic" "sub_1" "cus_1").1
      20 false "Basic" "sub_1" "cus_1").2 = true := by
  decide

/-- C1 (amended): in src/server.ts `applyCredits`, applying the same grant
twice yields the state of a single application — the second call finds the
invoice id in `payments`, returns `AlreadyApplied`, and leaves the state
unchanged (no write).  In the part_003 `grantCreditsToUser` variant there
is no history check: the second invocation writes again (flag `true`), but
the final document is nevertheless the same because the write overwrites
`credits` with the plan amount instead of incrementing. -/
theorem C1_double_apply_amended :
    (∀ (user : Option UserDoc) (g : CreditGrant) (now1 now2 : String),
      applyCredits (applyCredits user g now1).1 g now2
        = ((applyCredits user g now1).1, ApplyResult.alreadyApplied))
    ∧ (∀ (u : AdminDoc) (c : Int) (unl : Bool) (pl sub cust : String),
      (grantCreditsToUser (grantCreditsToUser u c unl pl sub cust).1 c unl pl sub cust).1
          = (grantCreditsToUser u c unl pl sub cust).1
        ∧ (grantCreditsToUser (grantCreditsToUser u c unl pl sub cust).1 c unl pl sub cust).2
          = true) := by
  constructor
  · intro user g now1 now2
    have h := hasInvoice_after_apply user g now1
    exact applyCredits_dup _ g now2 h
  · intro u c unl pl sub cust
    constructor
    · rfl
    · rfl

/-- C2 counterexample: two failures of the stated invariant, one per cited
variant.  In src/server.ts: from the empty account, apply an unlimited
grant (`inv_1`, delta 0) and then a finite grant (`inv_2`, delta 5) — both
transactions apply, the sum of the applied deltas is 5, but the stored
balance is 999999 + 5 = 1000004 and the account is no longer in the
unlimited state, so the balance equals neither the sum nor the sentinel.
In src/unnamed/part_003 (`grantCreditsToUser`, line 76 overwrites
`credits` with the plan amount): finite grants of 20 then 30 leave the
stored balance at 30, not the delta sum 50. -/
theorem C2_counterexample :
    (userCredits (applyCreditsSeq none
        [({ credits := 0, isUnlimited := true, plan := "Pro", invoiceId := "inv_1" }, "t1"),
         ({ credits := 5, isUnlimited := false, plan := "Basic", invoiceId := "inv_2" }, "t2")])
      ≠ newDeltaSum []
        [{ credits := 0, isUnlimited := true, plan := "Pro", invoiceId := "inv_1" },
         { credits := 5, isUnlimited := false, plan := "Basic", invoiceId := "inv_2" }]
    ∧ userIsUnlimited (applyCreditsSeq none
        [({ credits := 0, isUnlimited := true, plan := "Pro", invoiceId := "inv_1" }, "t1"),
         ({ credits := 5, isUnlimited := false, plan := "Basic", invoiceId := "inv_2" }, "t2")])
      = false)
    ∧ (grantCreditsToUserSeq
        { credits := 0, isUnlimited := false, plan := "Free",
          lastPaymentStatus := "none", subscriptionId := none,
          stripeCustomerId := none, payments := [] }
        [{ credits := 20, isUnlimited := false, planName := "A",
           subscriptionId := "sub_1", customerId := "cus_1" },
         { credits := 30, isUnlimited := false, planName := "B",
           subscriptionId := "sub_1", customerId := "cus_1" }]).credits
      = 30
    ∧ (30 : Int) ≠ 20 + 30 := by
  decide

/-- C2 (amended): the invariant holds only variant- and case-wise.  In the
src/server.ts `applyCredits` variant, after any sequence of grants from
the empty account: (1) if every grant in the sequence is finite, the
stored balance equals the sum of the credit deltas of the applied
transactions (each distinct transaction id counted once, at its first
occurrence); and (2) whenever the account is in the unlimited state the
stored balance is exactly the sentinel 999999 — but once a finite grant
follows an unlimited one the sentinel acts as the base of further
additions.  In the part_003 `grantCreditsToUser` variant the sum reading
fails even for all-finite sequences: (3) the write overwrites `credits`
with the plan amount, so after any non-empty sequence the stored balance
is the last grant's amount (or the sentinel when the last grant is
unlimited), regardless of the starting state and of every earlier grant. -/
theorem C2_balance_invariant_amended :
    (∀ gs : List (CreditGrant × String),
      (∀ gn ∈ gs, gn.1.isUnlimited = false) →
      userCredits (applyCreditsSeq none gs) = newDeltaSum [] (gs.map Prod.fst))
    ∧ (∀ gs : List (CreditGrant × String),
      userIsUnlimited (applyCreditsSeq none gs) = true →
      userCredits (applyCreditsSeq none gs) = 999999)
    ∧ (∀ (u : AdminDoc) (gs : List Grant003) (g : Grant003),
      (grantCreditsToUserSeq u (gs ++ [g])).credits
        = if g.isUnlimited then 999999 else g.credits) := by
  refine ⟨?_, ?_, ?_⟩
  · intro gs h
    have := credits_applyCreditsSeq gs none h
    simpa [userCredits, userPayments, invoiceIds] using this
  · intro gs h
    exact unlimited_sentinel_seq gs none (by simp [userIsUnlimited]) h
  · intro u gs g
    exact grantCreditsToUserSeq_last gs u g

/-- C2 witness: all three parts of the amended invariant at concrete
inputs — in the server.ts variant two finite grants of 10 and 5 leave
balance 15 and a single unlimited grant leaves the sentinel; in the
part_003 variant finite grants of 20 then 30 leave the last amount 30. -/
theorem C2_balance_invariant_amended_witness :
    userCredits (applyCreditsSeq none
        [({ credits := 10, isUnlimited := false, plan := "A", invoiceId := "inv_1" }, "t1"),
         ({ credits := 5, isUnlimited := false, plan := "B", invoiceId := "inv_2" }, "t2")])
      = 15
    ∧ userCredits (applyCreditsSeq none
        [({ credits := 0, isUnlimited := true, plan := "Pro", invoiceId := "inv_3" }, "t3")])
      = 999999
    ∧ (grantCreditsToUserSeq
        { credits := 0, isUnlimited := false, plan := "Free",
          lastPaymentStatus := "none", subscriptionId := none,
          stripeCustomerId := none, payments := [] }
        ([{ credits := 20, isUnlimited := false, planName := "A",
            subscriptionId := "sub_1", customerId := "cus_1" }]
          ++ [{ credits := 30, isUnlimited := false, planName := "B",
                subscriptionId := "sub_1", customerId := "cus_1" }])).credits
      = 30 := by
  refine ⟨?_, ?_, ?_⟩
  · have h := C2_balance_invariant_amended.1
      [({ credits := 10, isUnlimited := false, plan := "A", invoiceId := "inv_1" }, "t1"),
       ({ credits := 5, isUnlimited := false, plan := "B", invoiceId := "inv_2" }, "t2")]
      (by decide)
    rw [h]
    decide
  · have h := C2_balance_invariant_amended.2.1
      [({ credits := 0, isUnlimited := true, plan := "Pro", invoiceId := "inv_3" }, "t3")]
      (by decide)
    exact h
  · have h := C2_balance_invariant_amended.2.2
      { credits := 0, isUnlimited := false, plan := "Free",
        lastPaymentStatus := "none", subscriptionId := none,
        stripeCustomerId := none, payments := [] }
      [{ credits := 20, isUnlimited := false, planName := "A",
         subscriptionId := "sub_1", customerId := "cus_1" }]
      { credits := 30, isUnlimited := false, planName := "B",
        subscriptionId := "sub_1", customerId := "cus_1" }
    rw [h]
    decide

/-- C3 counterexample: an account in the unlimited state (balance 999999,
flag set) receives a fresh finite grant of delta 5; the stored balance
becomes 1000004, not the sentinel — the claim that a subsequent finite
grant does not change the sentinel is false at this input. -/
theorem C3_counterexample :
    userCredits
      (applyCredits
        (some { credits := 999999, isUnlimited := true, plan := "Pro",
                lastPaymentStatus := "active", lastPaymentDate := "t0",
                payments := [{ invoiceId := "inv_1", credits := some 0, date := some "t0" }] })
        { credits := 5, isUnlimited := false, plan := "Basic", invoiceId := "inv_2" }
        "t1").1 ≠ 999999 := by
  decide

/-- C3 (amended): a fresh unlimited grant sets the balance to the sentinel
999999 and the flag to true regardless of the prior balance; a fresh
finite grant of delta d applied afterwards sets the balance to
`current + d` (for an account still holding the sentinel: 999999 + d, a
change of the sentinel) and clears the flag — the new grant's
`isUnlimited` flag determines the resulting state, but the sentinel is not
preserved. -/
theorem C3_unlimited_override_amended :
    (∀ (user : Option UserDoc) (g : CreditGrant) (now : String),
      g.isUnlimited = true →
      hasInvoice (userPayments user) g.invoiceId = false →
      userCredits (applyCredits user g now).1 = 999999
        ∧ userIsUnlimited (applyCredits user g now).1 = true)
    ∧ (∀ (user : Option UserDoc) (g : CreditGrant) (now : String),
      g.isUnlimited = false →
      hasInvoice (userPayments user) g.invoiceId = false →
      userCredits (applyCredits user g now).1 = userCredits user + g.credits
        ∧ userIsUnlimited (applyCredits user g now).1 = false) := by
  constructor
  · intro user g now h1 h2
    constructor
    · simp only [applyCredits, h2]
      simp [h1, userCredits]
    · simp only [applyCredits, h2]
      simp [h1, userIsUnlimited]
  · intro user g now h1 h2
    constructor
    · exact userCredits_apply_fresh user g now h2 h1
    · simp only [applyCredits, h2]
      simp [h1, userIsUnlimited]

/-- C3 witness: an unlimited grant over a finite balance of 40 yields the
sentinel, and a finite grant of 5 over the resulting unlimited account
yields 1000004 with the flag cleared. -/
theorem C3_unlimited_override_amended_witness :
    userCredits
        (applyCredits
          (some { credits := 40, isUnlimited := false, plan := "Basic",
                  lastPaymentStatus := "active", lastPaymentDate := "t0", payments := [] })
          { credits := 0, isUnlimited := true, plan := "Pro", invoiceId := "inv_1" } "t1").1
      = 999999
    ∧ userCredits
        (applyCredits
          (some { credits := 999999, isUnlimited := true, plan := "Pro",
                  lastPaymentStatus := "active", lastPaymentDate := "t1",
                  payments := [{ invoiceId := "inv_1", credits := some 0, date := some "t1" }] })
          { credits := 5, isUnlimited := false, plan := "Basic", invoiceId := "inv_2" } "t2").1
      = 999999 + 5 := by
  constructor
  · exact (C3_unlimited_override_amended.1
      (some { credits := 40, isUnlimited := false, plan := "Basic",
              lastPaymentStatus := "active", lastPaymentDate := "t0", payments := [] })
      { credits := 0, isUnlimited := true, plan := "Pro", invoiceId := "inv_1" }
      "t1" (by decide) (by decide)).1
  · exact (C3_unlimited_override_amended.2
      (some { credits := 999999, isUnlimited := true, plan := "Pro",
              lastPaymentStatus := "active", lastPaymentDate := "t1",
              payments := [{ invoiceId := "inv_1", credits := some 0, date := some "t1" }] })
      { credits := 5, isUnlimited := false, plan := "Basic", invoiceId := "inv_2" }
      "t2" (by decide) (by decide)).1

/-- C4: for every starting account state and every pair of finite grants
with distinct invoice ids, src/server.ts `applyCredits` yields the same
final balance in either order; when both ids are fresh the final balance
is the starting balance plus the sum of both deltas. -/
theorem C4_commutativity (user : Option UserDoc) (g1 g2 : CreditGrant)
    (n1 n2 n3 n4 : String)
    (h1 : g1.isUnlimited = false) (h2 : g2.isUnlimited = false)
    (hne : g1.invoiceId ≠ g2.invoiceId) :
    userCredits (applyCredits (applyCredits user g1 n1).1 g2 n2).1
      = userCredits (applyCredits (applyCredits user g2 n3).1 g1 n4).1
    ∧ (hasInvoice (userPayments user) g1.invoiceId = false →
       hasInvoice (userPayments user) g2.invoiceId = false →
       userCredits (applyCredits (applyCredits user g1 n1).1 g2 n2).1
         = userCredits user + (g1.credits + g2.credits)) := by
  have hbeq12 : (g1.invoiceId == g2.invoiceId) = false := beq_eq_false_iff_ne.mpr hne
  have hbeq21 : (g2.invoiceId == g1.invoiceId) = false := beq_eq_false_iff_ne.mpr (Ne.symm hne)
  by_cases ha : hasInvoice (userPayments user) g1.invoiceId
  · rw [applyCredits_dup user g1 n1 ha]
    by_cases hb : hasInvoice (userPayments user) g2.invoiceId
    · rw [applyCredits_dup user g2 n2 hb, applyCredits_dup user g2 n3 hb,
        applyCredits_dup user g1 n4 ha]
      exact ⟨rfl, fun hfa _ => by simp [hfa] at ha⟩
    · have hbf : hasInvoice (userPayments user) g2.invoiceId = false := by
        simpa using hb
      have hR1 : hasInvoice (userPayments (applyCredits user g2 n3).1) g1.invoiceId = true := by
        rw [hasInvoice_apply_fresh user g2 n3 g1.invoiceId hbf]
        simp [ha]
      rw [applyCredits_dup _ g1 n4 hR1, userCredits_apply_fresh user g2 n2 hbf h2,
        userCredits_apply_fresh user g2 n3 hbf h2]
      exact ⟨rfl, fun hfa _ => by simp [hfa] at ha⟩
  · have haf : hasInvoice (userPayments user) g1.invoiceId = false := by
      simpa using ha
    by_cases hb : hasInvoice (userPayments user) g2.invoiceId
    · have hL2 : hasInvoice (userPayments (applyCredits user g1 n1).1) g2.invoiceId = true := by
        rw [hasInvoice_apply_fresh user g1 n1 g2.invoiceId haf]
        simp [hb]
      rw [applyCredits_dup _ g2 n2 hL2, userCredits_apply_fresh user g1 n1 haf h1,
        applyCredits_dup user g2 n3 hb, userCredits_apply_fresh user g1 n4 haf h1]
      exact ⟨rfl, fun _ hfb => by simp [hfb] at hb⟩
    · have hbf : hasInvoice (userPayments user) g2.invoiceId = false := by
        simpa using hb
      have hL2 : hasInvoice (userPayments (applyCredits user g1 n1).1) g2.invoiceId = false := by
        rw [hasInvoice_apply_fresh user g1 n1 g2.invoiceId haf]
        simp [hbf, hbeq12]
      have hR1 : hasInvoice (userPayments (applyCredits user g2 n3).1) g1.invoiceId = false := by
        rw [hasInvoice_apply_fresh user g2 n3 g1.invoiceId hbf]
        simp [haf, hbeq21]
      rw [userCredits_apply_fresh _ g2 n2 hL2 h2, userCredits_apply_fresh user g1 n1 haf h1,
        userCredits_apply_fresh _ g1 n4 hR1 h1, userCredits_apply_fresh user g2 n3 hbf h2]
      constructor
      · ring
      · intro _ _
        ring

/-- C4 witness: from the empty account, grants of 10 (`inv_1`) and 5
(`inv_2`) commute and the final balance is 0 + (10 + 5) = 15. -/
theorem C4_commutativity_witness :
    userCredits (applyCredits (applyCredits none
        { credits := 10, isUnlimited := false, plan := "A", invoiceId := "inv_1" } "t1").1
        { credits := 5, isUnlimited := false, plan := "B", invoiceId := "inv_2" } "t2").1
      = userCredits (applyCredits (applyCredits none
          { credits := 5, isUnlimited := false, plan := "B", invoiceId := "inv_2" } "t3").1
          { credits := 10, isUnlimited := false, plan := "A", invoiceId := "inv_1" } "t4").1
    ∧ userCredits (applyCredits (applyCredits none
        { credits := 10, isUnlimited := false, plan := "A", invoiceId := "inv_1" } "t1").1
        { credits := 5, isUnlimited := false, plan := "B", invoiceId := "inv_2" } "t2").1
      = 0 + (10 + 5) := by
  have h := C4_commutativity none
    { credits := 10, isUnlimited := false, plan := "A", invoiceId := "inv_1" }
    { credits := 5, isUnlimited := false, plan := "B", invoiceId := "inv_2" }
    "t1" "t2" "t3" "t4" (by decide) (by decide) (by decide)
  exact ⟨h.1, h.2 (by decide) (by decide)⟩

/-- C6: a `checkout.session.completed` event with no
`client_reference_id` is ignored: the src/server.ts handler answers
`{received: true}` without calling `applyCredits` (no store write), and
the src/index.js handler's uid gate likewise does not proceed to its store
write. -/
theorem C6_missing_reference_ignored (s : CheckoutSession) (li : Option LineItemProduct)
    (h : s.clientReferenceId = none) :
    checkoutCompleted s li = CheckoutOutcome.ignored
    ∧ checkoutProceedsIndexJs s.clientReferenceId = false := by
  constructor
  · simp [checkoutCompleted, h, jsTruthy]
  · simp [checkoutProceedsIndexJs, h, jsTruthy]

/-- C6 witness: a concrete session without an account reference is
ignored even though its line item carries valid credits metadata. -/
theorem C6_missing_reference_ignored_witness :
    checkoutCompleted { id := "cs_1", clientReferenceId := none, invoice := none }
      (some { metadata := { credits := some "20", isUnlimited := none, planName := none },
              name := some "Basic" })
      = CheckoutOutcome.ignored := by
  exact (C6_missing_reference_ignored
    { id := "cs_1", clientReferenceId := none, invoice := none }
    (some { metadata := { credits := some "20", isUnlimited := none, planName := none },
            name := some "Basic" })
    rfl).1

/-- C7 counterexample: the src/index.js `customer.subscription.deleted`
handler does not write any payment-status field — on an account whose
`lastPaymentStatus` is "active" it stays "active" after cancellation,
while the claim says it becomes canceled. -/
theorem C7_counterexample :
    (subscriptionDeletedIndexJs
      { credits := 40, isUnlimited := false, plan := "Basic",
        lastPaymentStatus := "active", subscriptionId := some "sub_1",
        stripeCustomerId := some "cus_1",
        payments := [{ invoiceId := "inv_1", credits := some 40, date := some "t0" }] }).lastPaymentStatus
      ≠ "canceled" := by
  decide

/-- C7 (amended): on cancellation the part_001 handler sets balance 0,
clears the unlimited flag, sets plan "expired" and payment status
"canceled", leaving the payments history and the remaining fields
unchanged; the src/index.js handler performs the same mutation except that
it writes no payment-status field, so `lastPaymentStatus` keeps its prior
value. -/
theorem C7_cancellation_amended (u : AdminDoc) :
    (subscriptionDeletedPart001 u).credits = 0
    ∧ (subscriptionDeletedPart001 u).isUnlimited = false
    ∧ (subscriptionDeletedPart001 u).plan = "expired"
    ∧ (subscriptionDeletedPart001 u).lastPaymentStatus = "canceled"
    ∧ (subscriptionDeletedPart001 u).payments = u.payments
    ∧ (subscriptionDeletedPart001 u).subscriptionId = u.subscriptionId
    ∧ (subscriptionDeletedPart001 u).stripeCustomerId = u.stripeCustomerId
    ∧ (subscriptionDeletedIndexJs u).credits = 0
    ∧ (subscriptionDeletedIndexJs u).isUnlimited = false
    ∧ (subscriptionDeletedIndexJs u).plan = "expired"
    ∧ (subscriptionDeletedIndexJs u).lastPaymentStatus = u.lastPaymentStatus
    ∧ (subscriptionDeletedIndexJs u).payments = u.payments := by
  simp [subscriptionDeletedPart001, subscriptionDeletedIndexJs]

/-- C8 counterexample: src/server.ts `applyCredits` rebuilds the payments
array keeping only the `invoiceId` of earlier records (line 304) — after a
fresh grant `inv_2`, the previously written full record for `inv_1`
(with its credits and date fields) is no longer present in the history,
so records are not immutable once written. -/
theorem C8_counterexample :
    ¬ ({ invoiceId := "inv_1", credits := some 20, date := some "d1" } : PaymentRecord)
      ∈ userPayments (applyCredits
          (some { credits := 20, isUnlimited := false, plan := "Basic",
                  lastPaymentStatus := "active", lastPaymentDate := "d1",
                  payments := [{ invoiceId := "inv_1", credits := some 20, date := some "d1" }] })
          { credits := 10, isUnlimited := false, plan := "Basic", invoiceId := "inv_2" }
          "d2").1 := by
  decide

/-- C8 (amended): per application of a fresh grant the history is
append-only at the level of transaction ids — the invoice ids of all prior
records survive in order and exactly one new record is appended — but the
prior records themselves are rewritten with only their `invoiceId`: their
`credits` and `date` fields are dropped. -/
theorem C8_append_only_amended (user : Option UserDoc) (g : CreditGrant) (now : String)
    (h : hasInvoice (userPayments user) g.invoiceId = false) :
    invoiceIds (userPayments (applyCredits user g now).1)
        = invoiceIds (userPayments user) ++ [g.invoiceId]
    ∧ (userPayments (applyCredits user g now).1).length = (userPayments user).length + 1
    ∧ ∀ p ∈ userPayments user,
        ({ invoiceId := p.invoiceId, credits := none, date := none } : PaymentRecord)
          ∈ userPayments (applyCredits user g now).1 := by
  refine ⟨invoiceIds_apply_fresh user g now h, ?_, ?_⟩
  · rw [userPayments_apply_fresh user g now h]
    simp
  · intro p hp
    rw [userPayments_apply_fresh user g now h]
    simp only [List.mem_append, List.mem_map]
    exact Or.inl ⟨p, hp, rfl⟩

/-- C8 witness: applying a fresh grant `inv_2` over a one-record history
extends the id sequence to `[inv_1, inv_2]`. -/
theorem C8_append_only_amended_witness :
    invoiceIds (userPayments (applyCredits
      (some { credits := 20, isUnlimited := false, plan := "Basic",
              lastPaymentStatus := "active", lastPaymentDate := "d1",
              payments := [{ invoiceId := "inv_1", credits := some 20, date := some "d1" }] })
      { credits := 10, isUnlimited := false, plan := "Basic", invoiceId := "inv_2" }
      "d2").1) = ["inv_1", "inv_2"] := by
  have h := C8_append_only_amended
    (some { credits := 20, isUnlimited := false, plan := "Basic",
            lastPaymentStatus := "active", lastPaymentDate := "d1",
            payments := [{ invoiceId := "inv_1", credits := some 20, date := some "d1" }] })
    { credits := 10, isUnlimited := false, plan := "Basic", invoiceId := "inv_2" }
    "d2" (by decide)
  rw [h.1]
  decide

/-- C9: deduplication in src/server.ts `applyCredits` is keyed on the
invoice id alone — if the history already holds a record with the grant's
invoice id but a different recorded delta, the call returns
`AlreadyApplied` and leaves the document (balance, flag and history)
unchanged. -/
theorem C9_dedup_on_transaction_id (user : Option UserDoc) (g : CreditGrant)
    (now : String) (p : PaymentRecord)
    (hp : p ∈ userPayments user) (hid : p.invoiceId = g.invoiceId)
    (_hdelta : p.credits ≠ some g.credits) :
    applyCredits user g now = (user, ApplyResult.alreadyApplied) := by
  have h : hasInvoice (userPayments user) g.invoiceId = true := by
    simp only [hasInvoice, List.any_eq_true]
    exact ⟨p, hp, by simp [hid]⟩
  exact applyCredits_dup user g now h

/-- C9 witness: a grant re-using `inv_1` with delta 50 and the unlimited
flag set is dropped on an account whose history records `inv_1` with
delta 20 — the document is returned unchanged. -/
theorem C9_dedup_on_transaction_id_witness :
    applyCredits
      (some { credits := 20, isUnlimited := false, plan := "Basic",
              lastPaymentStatus := "active", lastPaymentDate := "d1",
              payments := [{ invoiceId := "inv_1", credits := some 20, date := some "d1" }] })
      { credits := 50, isUnlimited := true, plan := "Pro", invoiceId := "inv_1" } "d2"
      = (some { credits := 20, isUnlimited := false, plan := "Basic",
                lastPaymentStatus := "active", lastPaymentDate := "d1",
                payments := [{ invoiceId := "inv_1", credits := some 20, date := some "d1" }] },
         ApplyResult.alreadyApplied) := by
  exact C9_dedup_on_transaction_id
    (some { credits := 20, isUnlimited := false, plan := "Basic",
            lastPaymentStatus := "active", lastPaymentDate := "d1",
            payments := [{ invoiceId := "inv_1", credits := some 20, date := some "d1" }] })
    { credits := 50, isUnlimited := true, plan := "Pro", invoiceId := "inv_1" } "d2"
    { invoiceId := "inv_1", credits := some 20, date := some "d1" }
    (by decide) rfl (by decide)

/-- C10: in the part_000 variant every non-OK store read — not only a 404
— makes `getUser` return null, and `applyCredits` then proceeds from the
zero-balance, empty-history default: the grant applies with balance
computed from 0 and the written history holds only the new record.  A
transient read failure is thus indistinguishable from an absent account. -/
theorem C10_failed_read_defaults (r : FirestoreResponse UserDoc000) (g : CreditGrant)
    (h : r.ok = false) :
    getUser000 r = none
    ∧ (applyCredits000 (getUser000 r) g).2
        = ApplyResult.applied (if g.isUnlimited then 999999 else g.credits)
    ∧ userPayments000 (applyCredits000 (getUser000 r) g).1
        = [{ invoiceId := g.invoiceId, credits := some g.credits, date := none }] := by
  have h0 : getUser000 r = none := by
    simp [getUser000, h]
  refine ⟨h0, ?_, ?_⟩
  · rw [h0]
    simp [applyCredits000, hasInvoice, userPayments000, userCredits000]
  · rw [h0]
    simp [applyCredits000, hasInvoice, userPayments000]

/-- C10 witness: a 500 response (a transient server error, not a 404)
reads as an absent account, and the subsequent grant of 20 credits applies
from the zero default. -/
theorem C10_failed_read_defaults_witness :
    getUser000 { ok := false, status := 500, fields := none } = none
    ∧ (applyCredits000 (getUser000 { ok := false, status := 500, fields := none })
        { credits := 20, isUnlimited := false, plan := "Basic", invoiceId := "inv_1" }).2
      = ApplyResult.applied 20 := by
  have h := C10_failed_read_defaults { ok := false, status := 500, fields := none }
    { credits := 20, isUnlimited := false, plan := "Basic", invoiceId := "inv_1" } rfl
  exact ⟨h.1, by rw [h.2.1]; decide⟩

end Schriftbot
